import Mathlib

/-!
Shallow embedding of the query-validation and tool-dispatch layer of
`src/server.py` (a fastMCP server exposing read-only PostgreSQL tools),
together with theorems settling the frozen claims about it.

Conventions of the embedding:
* Python strings are Lean `String`s; `str.upper`/`str.strip` are embedded
  over `List Char` (`pyUpper`, `pyStrip`).
* A Python function that raises `ValueError` is embedded as `Except String`.
* The relational store is embedded as an explicit state (`Db`): lists of
  `customers` and `support_tickets` rows plus the clock `NOW()` as `now`.
  A result row (psycopg2 `RealDictRow`) is an ordered mapping from column
  name to a `PgValue`.
* Each fixed tool's SQL text is carried verbatim (`... _sql` constants) and
  its FROM/WHERE/SELECT semantics are embedded as executable functions over
  `Db`. `ORDER BY` clauses only permute the returned rows and are not
  modelled: every claim under study is about the set of rows, the row
  contents, or emptiness, all invariant under permutation.
-/

deriving instance DecidableEq for Except

/-- Tagged scalar for a result-row cell (null, integer, text, numeric). -/
inductive PgValue
  | null
  | int (n : Int)
  | text (s : String)
  | rat (q : ℚ)
deriving DecidableEq, Repr

/-- A result row: ordered mapping from column name to value. -/
abbrev Row := List (String × PgValue)

/-- Row of the `customers` table. -/
structure Customer where
  id : Nat
  name : String
  email : String
  subscription_tier : String
  mrr : Int
  country : String
  created_at : Int
deriving DecidableEq, Repr

/-- Row of the `support_tickets` table; `resolved_at` is nullable. -/
structure Ticket where
  id : Nat
  customer_id : Nat
  subject : String
  status : String
  priority : String
  created_at : Int
  resolved_at : Option Int
deriving DecidableEq, Repr

/-- The store state: the two tables and the current time `NOW()` (in days,
matching the `EXTRACT(DAY FROM NOW() - ...)` uses in the source). -/
structure Db where
  customers : List Customer
  support_tickets : List Ticket
  now : Int
deriving DecidableEq, Repr

/-- Python `str.upper` restricted to the ASCII range the source's SQL and
keywords use. -/
def pyUpper (s : List Char) : List Char := s.map Char.toUpper

/-- Characters Python `str.strip()` removes (the ASCII whitespace set). -/
def pyWhitespace (c : Char) : Bool :=
  c == ' ' || c == '\t' || c == '\n' || c == '\r' || c == '\x0b' || c == '\x0c'

/-- Python `str.strip()`: drop leading and trailing whitespace. -/
def pyStrip (s : List Char) : List Char :=
  ((s.dropWhile pyWhitespace).reverse.dropWhile pyWhitespace).reverse

/-- The normalized text `query.upper().strip()` computed by `validate_query`
(`src/server.py` line 62). -/
def pyNormalize (query : String) : List Char := pyStrip (pyUpper query.data)

/-- `FORBIDDEN_KEYWORDS` (`src/server.py` lines 57-58). -/
def FORBIDDEN_KEYWORDS : List String :=
  ["DROP", "DELETE", "UPDATE", "INSERT", "TRUNCATE", "ALTER", "CREATE", "GRANT", "REVOKE"]

/-- Python's `needle in hay` on strings: contiguous-substring containment. -/
def isSubstring (needle : List Char) : List Char → Bool
  | [] => needle.isEmpty
  | c :: tl => needle.isPrefixOf (c :: tl) || isSubstring needle tl

/-- `isSubstring` agrees with the standard contiguous-sublist relation. -/
theorem isSubstring_iff_infix (needle hay : List Char) :
    isSubstring needle hay = true ↔ needle <:+: hay := by
  induction hay with
  | nil => simp [isSubstring, List.isEmpty_iff]
  | cons c tl ih =>
    simp [isSubstring, List.infix_cons_iff, ih, List.isPrefixOf_iff_prefix]

/-- `validate_query` (`src/server.py` lines 60-74): normalize, require the
character prefix `SELECT` (Python `startswith`), then raise on the first
forbidden keyword occurring as a substring of the normalized text; return
`True` otherwise. Raising `ValueError(msg)` is embedded as `.error msg`. -/
def validate_query (query : String) : Except String Bool :=
  if "SELECT".data.isPrefixOf (pyNormalize query) then
    match FORBIDDEN_KEYWORDS.find? (fun kw => isSubstring kw.data (pyNormalize query)) with
    | some kw => Except.error ("Forbidden operation detected: " ++ kw)
    | none => Except.ok true
  else
    Except.error "Only SELECT queries are permitted"

/-- SQL `LIKE` pattern matching over character lists, with explicit fuel:
`%` matches any sequence, `_` any single character, anything else itself.
Each recursive call shrinks `pattern.length + s.length`, so the fuel
supplied by `likeMatch` (one more than that sum) never runs out. -/
def likeMatchF : Nat → List Char → List Char → Bool
  | 0, _, _ => false
  | fuel + 1, pattern, s =>
    match pattern, s with
    | [], [] => true
    | [], _ :: _ => false
    | '%' :: ps, [] => likeMatchF fuel ps []
    | '%' :: ps, c :: cs => likeMatchF fuel ps (c :: cs) || likeMatchF fuel ('%' :: ps) cs
    | '_' :: _, [] => false
    | '_' :: ps, _ :: cs => likeMatchF fuel ps cs
    | _ :: _, [] => false
    | p :: ps, c :: cs => p == c && likeMatchF fuel ps cs

/-- SQL `LIKE`: total wrapper supplying sufficient fuel. -/
def likeMatch (pattern s : List Char) : Bool :=
  likeMatchF (pattern.length + s.length + 1) pattern s

/-- PostgreSQL `s ILIKE pattern`: case-insensitive `LIKE` (both sides
case-folded). -/
def ilike (s pattern : String) : Bool :=
  likeMatch (pyUpper pattern.data) (pyUpper s.data)

/-- The wildcard-wrapped search pattern `f"%{search}%"` built by
`get_customer_info` (line 139) and `get_customer_health_score` (line 295). -/
def searchPattern (search : String) : String := "%" ++ search ++ "%"

/-- The health-score `CASE` expression of `get_customer_health_score`
(`src/server.py` lines 283-289), over the two aggregated counts. -/
def health_score (open_tickets high_priority_tickets : Nat) : Nat :=
  if open_tickets = 0 then 100
  else if open_tickets ≤ 2 ∧ high_priority_tickets = 0 then 85
  else if open_tickets ≤ 5 ∧ high_priority_tickets ≤ 1 then 70
  else if 2 ≤ high_priority_tickets then 40
  else 60

/-- Guard of the i-th rule of the decision table (claim order, 0-based);
rule 4 is the `ELSE` arm. -/
def ruleGuard (open_tickets high_priority_tickets : Nat) : Nat → Prop
  | 0 => open_tickets = 0
  | 1 => open_tickets ≤ 2 ∧ high_priority_tickets = 0
  | 2 => open_tickets ≤ 5 ∧ high_priority_tickets ≤ 1
  | 3 => 2 ≤ high_priority_tickets
  | _ => True

/-- Score attached to the i-th rule. -/
def ruleScore : Nat → Nat
  | 0 => 100
  | 1 => 85
  | 2 => 70
  | 3 => 40
  | _ => 60

/-- Rule `i` applies under first-match-wins evaluation: its guard holds and
no earlier guard does. -/
def ruleApplies (open_tickets high_priority_tickets i : Nat) : Prop :=
  i < 5 ∧ ruleGuard open_tickets high_priority_tickets i ∧
    ∀ j < i, ¬ ruleGuard open_tickets high_priority_tickets j

/-- Index of the first rule whose guard holds (mirrors the CASE chain). -/
def firstRuleIdx (open_tickets high_priority_tickets : Nat) : Nat :=
  if open_tickets = 0 then 0
  else if open_tickets ≤ 2 ∧ high_priority_tickets = 0 then 1
  else if open_tickets ≤ 5 ∧ high_priority_tickets ≤ 1 then 2
  else if 2 ≤ high_priority_tickets then 3
  else 4

/-- Python truthiness of an optional string (`if priority:` at line 184):
`None` and the empty string are falsy, any other string truthy. -/
def pyTruthy : Option String → Bool
  | none => false
  | some s => !(s == "")

/-- The SQL text of `get_customer_info` (`src/server.py` lines 122-135),
verbatim (apostrophes written as \x27). -/
def customer_info_sql : String :=
  "\n        SELECT \n            c.*,\n            COUNT(t.id) as total_tickets,\n            COUNT(CASE WHEN t.status = \x27Open\x27 THEN 1 END) as open_tickets,\n            COUNT(CASE WHEN t.status = \x27In Progress\x27 THEN 1 END) as in_progress_tickets,\n            COUNT(CASE WHEN t.priority = \x27High\x27 THEN 1 END) as high_priority_tickets,\n            MAX(t.created_at) as last_ticket_date\n        FROM customers c\n        LEFT JOIN support_tickets t ON c.id = t.customer_id\n        WHERE c.name ILIKE %s OR c.email ILIKE %s\n        GROUP BY c.id\n        ORDER BY c.mrr DESC\n    "

/-- The base SQL text of `get_open_tickets` (`src/server.py` lines 166-181),
before the optional priority clause and the ORDER BY are appended. -/
def open_tickets_base_sql : String :=
  "\n        SELECT \n            t.id,\n            t.subject,\n            t.status,\n            t.priority,\n            t.created_at,\n            c.name as customer_name,\n            c.subscription_tier,\n            c.mrr,\n            c.country,\n            EXTRACT(DAY FROM NOW() - t.created_at) as days_open\n        FROM support_tickets t\n        JOIN customers c ON t.customer_id = c.id\n        WHERE t.status IN (\x27Open\x27, \x27In Progress\x27)\n    "

/-- The SQL text of `get_customer_health_score` (`src/server.py` lines
264-291), verbatim. -/
def customer_health_sql : String :=
  "\n        WITH customer_metrics AS (\n            SELECT \n                c.id,\n                c.name,\n                c.subscription_tier,\n                c.mrr,\n                EXTRACT(DAY FROM NOW() - c.created_at) as account_age_days,\n                COUNT(t.id) as total_tickets,\n                COUNT(CASE WHEN t.status IN (\x27Open\x27, \x27In Progress\x27) THEN 1 END) as open_tickets,\n                COUNT(CASE WHEN t.priority = \x27High\x27 THEN 1 END) as high_priority_tickets,\n                AVG(EXTRACT(DAY FROM t.resolved_at - t.created_at)) as avg_resolution_days\n            FROM customers c\n            LEFT JOIN support_tickets t ON c.id = t.customer_id\n            WHERE c.name ILIKE %s\n            GROUP BY c.id\n        )\n        SELECT \n            *,\n            CASE \n                WHEN open_tickets = 0 THEN 100\n                WHEN open_tickets <= 2 AND high_priority_tickets = 0 THEN 85\n                WHEN open_tickets <= 5 AND high_priority_tickets <= 1 THEN 70\n                WHEN high_priority_tickets >= 2 THEN 40\n                ELSE 60\n            END as health_score\n        FROM customer_metrics\n    "

/-- The (SQL text, bound parameters) pair `get_customer_info` sends to the
store (lines 139-140): constant text, the wildcard-wrapped search bound
twice. -/
def get_customer_info_request (search : String) : String × List String :=
  (customer_info_sql, [searchPattern search, searchPattern search])

/-- The (SQL text, bound parameters) pair `get_customer_health_score` sends
to the store (line 295): constant text, the wildcard-wrapped name bound
once. -/
def get_customer_health_request (customer_name : String) : String × List String :=
  (customer_health_sql, [searchPattern customer_name])

/-- The (SQL text, bound parameters) pair `get_open_tickets` sends to the
store (lines 183-192): the filter clause and its parameter are added only
when `priority` is truthy, then the ORDER BY is appended. -/
def get_open_tickets_request (priority : Option String) : String × List String :=
  let query := open_tickets_base_sql
  let params : List String := []
  let step : String × List String :=
    if pyTruthy priority then (query ++ " AND t.priority = %s", params ++ [priority.getD ""])
    else (query, params)
  (step.1 ++ " ORDER BY t.priority DESC, t.created_at ASC", step.2)

/-- The inner join `FROM support_tickets t JOIN customers c ON
t.customer_id = c.id` of `get_open_tickets`. -/
def ticketJoin (db : Db) : List (Ticket × Customer) :=
  db.support_tickets.flatMap fun t =>
    (db.customers.filter fun c => t.customer_id == c.id).map fun c => (t, c)

/-- The WHERE condition of `get_open_tickets`: status in
{Open, In Progress}, plus `t.priority = %s` exactly when the tool added the
clause (truthy argument). -/
def openTicketsWhere (priority : Option String) (tc : Ticket × Customer) : Bool :=
  (tc.1.status == "Open" || tc.1.status == "In Progress") &&
    (if pyTruthy priority then tc.1.priority == priority.getD "" else true)

/-- The rows selected by `get_open_tickets` (the ORDER BY only permutes
them and is not modelled). -/
def get_open_tickets_rows (db : Db) (priority : Option String) : List (Ticket × Customer) :=
  (ticketJoin db).filter (openTicketsWhere priority)

/-- The SELECT list of `get_open_tickets`, as a result row. -/
def openTicketRow (db : Db) (tc : Ticket × Customer) : Row :=
  [("id", PgValue.int tc.1.id), ("subject", PgValue.text tc.1.subject),
   ("status", PgValue.text tc.1.status), ("priority", PgValue.text tc.1.priority),
   ("created_at", PgValue.int tc.1.created_at), ("customer_name", PgValue.text tc.2.name),
   ("subscription_tier", PgValue.text tc.2.subscription_tier), ("mrr", PgValue.int tc.2.mrr),
   ("country", PgValue.text tc.2.country), ("days_open", PgValue.int (db.now - tc.1.created_at))]

/-- `get_open_tickets` (`src/server.py` lines 150-195): the selected rows,
projected through the SELECT list. -/
def get_open_tickets (db : Db) (priority : Option String) : List Row :=
  (get_open_tickets_rows db priority).map (openTicketRow db)

/-- The WHERE condition of `get_customer_info`:
`c.name ILIKE %s OR c.email ILIKE %s` with the wildcard-wrapped pattern. -/
def customerMatches (search : String) (c : Customer) : Bool :=
  ilike c.name (searchPattern search) || ilike c.email (searchPattern search)

/-- Tickets of one customer (the LEFT JOIN partners under
`c.id = t.customer_id`). -/
def customerTickets (db : Db) (c : Customer) : List Ticket :=
  db.support_tickets.filter fun t => t.customer_id == c.id

/-- `MAX(t.created_at)`: null over an empty group (SQL aggregate). -/
def maxCreatedAt (ts : List Ticket) : PgValue :=
  match ts with
  | [] => PgValue.null
  | t :: tl => PgValue.int (tl.foldl (fun acc u => max acc u.created_at) t.created_at)

/-- One grouped row of `get_customer_info`: the customer's columns plus the
aggregated ticket counts and the most recent ticket date. -/
def customerInfoRow (db : Db) (c : Customer) : Row :=
  let ts := customerTickets db c
  [("id", PgValue.int c.id), ("name", PgValue.text c.name), ("email", PgValue.text c.email),
   ("subscription_tier", PgValue.text c.subscription_tier), ("mrr", PgValue.int c.mrr),
   ("country", PgValue.text c.country), ("created_at", PgValue.int c.created_at),
   ("total_tickets", PgValue.int ts.length),
   ("open_tickets", PgValue.int (ts.filter fun t => t.status == "Open").length),
   ("in_progress_tickets", PgValue.int (ts.filter fun t => t.status == "In Progress").length),
   ("high_priority_tickets", PgValue.int (ts.filter fun t => t.priority == "High").length),
   ("last_ticket_date", maxCreatedAt ts)]

/-- The row set the store returns to `get_customer_info` (one row per
matching customer; ORDER BY only permutes and is not modelled). -/
def get_customer_info_rows (db : Db) (search : String) : List Row :=
  (db.customers.filter (customerMatches search)).map (customerInfoRow db)

/-- The no-customer-found message used by both `get_customer_info` (line
145) and `get_customer_health_score` (line 299). -/
def no_customer_message (search : String) : String :=
  "No customer found matching \x27" ++ search ++ "\x27"

/-- The result shaping of `get_customer_info` (lines 141-148): substitute
the single-element message list for an empty row set, pass any other row
set through unchanged. -/
def get_customer_info_shape (search : String) (results : List Row) : List Row :=
  if results.isEmpty then [[("message", PgValue.text (no_customer_message search))]]
  else results

/-- `get_customer_info` (`src/server.py` lines 106-148): query then shape. -/
def get_customer_info (db : Db) (search : String) : List Row :=
  get_customer_info_shape search (get_customer_info_rows db search)

/-- `AVG(EXTRACT(DAY FROM t.resolved_at - t.created_at))`: the mean
resolution time over the tickets with a non-null `resolved_at`; null when
there are none (SQL AVG ignores nulls). -/
def avgResolutionDays (ts : List Ticket) : PgValue :=
  match ts.filterMap (fun t => t.resolved_at.map (fun r => r - t.created_at)) with
  | [] => PgValue.null
  | d :: ds => PgValue.rat (((d :: ds).foldl (· + ·) 0 : Int) / ((d :: ds).length : ℚ))

/-- One row of the `customer_metrics` CTE of `get_customer_health_score`,
extended with the CASE-computed `health_score` column. -/
def healthMetricsRow (db : Db) (c : Customer) : Row :=
  let ts := customerTickets db c
  let open_tickets :=
    (ts.filter fun t => t.status == "Open" || t.status == "In Progress").length
  let high_priority_tickets := (ts.filter fun t => t.priority == "High").length
  [("id", PgValue.int c.id), ("name", PgValue.text c.name),
   ("subscription_tier", PgValue.text c.subscription_tier), ("mrr", PgValue.int c.mrr),
   ("account_age_days", PgValue.int (db.now - c.created_at)),
   ("total_tickets", PgValue.int ts.length),
   ("open_tickets", PgValue.int open_tickets),
   ("high_priority_tickets", PgValue.int high_priority_tickets),
   ("avg_resolution_days", avgResolutionDays ts),
   ("health_score", PgValue.int (health_score open_tickets high_priority_tickets))]

/-- The row set the health-score query produces: one metrics row per
customer whose name matches `ILIKE %s` with the wildcard-wrapped name. -/
def get_customer_health_rows (db : Db) (customer_name : String) : List Row :=
  (db.customers.filter fun c => ilike c.name (searchPattern customer_name)).map
    (healthMetricsRow db)

/-- `get_customer_health_score` (`src/server.py` lines 244-302):
`fetchone()` takes the first produced row (`none` when there is none); the
tool returns the error object on no row and the single row otherwise. -/
def get_customer_health_score (db : Db) (customer_name : String) : Row :=
  match (get_customer_health_rows db customer_name).head? with
  | none => [("error", PgValue.text (no_customer_message customer_name))]
  | some r => r

/-- Events a tool invocation can cause on the store connector. -/
inductive DbEvent
  | acquire
  | execute (sql : String) (params : List String)
  | fetch
  | commit
  | rollback
  | closeConn
deriving DecidableEq, Repr

/-- Trace of store-connector events of one `query_database` invocation
(`src/server.py` lines 80-104). `validate_query` runs before any connection
exists, so a rejected query causes no events. `with get_db_connection() as
conn` opens a connection (`acquire`); on leaving the `with` block the
psycopg2 connection context manager commits the transaction on normal exit
and rolls it back when the body raised an exception — it does not close the
connection, and `conn.close()` is never called in the tool body, so no
`closeConn` event can occur. `execOk` is the store's verdict on executing
the query (`cur.execute` raising or not). -/
def query_database_events (query : String) (execOk : Bool) : List DbEvent :=
  match validate_query query with
  | Except.error _ => []
  | Except.ok _ =>
    if execOk then
      [DbEvent.acquire, DbEvent.execute query [], DbEvent.fetch, DbEvent.commit]
    else
      [DbEvent.acquire, DbEvent.execute query [], DbEvent.rollback]

/-- The claim-side notion of beginning with `SELECT` as a whole token:
the prefix `SELECT` followed by the end of the text or a non-identifier
character. Stated from the spec's words to compare with the source's
character-prefix check. -/
def beginsWithSelectToken (s : List Char) : Bool :=
  "SELECT".data.isPrefixOf s &&
    (match s.drop 6 with
     | [] => true
     | c :: _ => !(c.isAlphanum || c == '_'))

/-- Sample store state used by the concrete witnesses. -/
def sampleCustomer : Customer :=
  { id := 1, name := "Acme", email := "ops@acme.example", subscription_tier := "Enterprise",
    mrr := 50000, country := "FR", created_at := 100 }

/-- Sample ticket belonging to `sampleCustomer`. -/
def sampleTicket : Ticket :=
  { id := 1, customer_id := 1, subject := "Login fails", status := "Open",
    priority := "High", created_at := 200, resolved_at := none }

/-- Sample store state: one customer, one open high-priority ticket. -/
def sampleDb : Db :=
  { customers := [sampleCustomer], support_tickets := [sampleTicket], now := 400 }

/-! ## Claim theorems -/

/-- C1: for every input text whose normalized (trimmed, case-folded) form
begins with `SELECT`, `validate_query` fails (raises, embedded as `.error`)
if and only if the normalized text contains one of the nine forbidden
keywords as a substring; with none of them it succeeds. -/
theorem validate_select_fails_iff_forbidden (query : String)
    (h : "SELECT".data.isPrefixOf (pyNormalize query) = true) :
    (validate_query query).isOk = false ↔
      ∃ kw ∈ FORBIDDEN_KEYWORDS, isSubstring kw.data (pyNormalize query) = true := by
  unfold validate_query
  simp only [h, if_true]
  rcases hf : FORBIDDEN_KEYWORDS.find? (fun kw => isSubstring kw.data (pyNormalize query))
    with _ | kw
  · simp only [hf]
    constructor
    · intro hfalse
      simp [Except.isOk, Except.toBool] at hfalse
    · rintro ⟨kw, hmem, hsub⟩
      exact absurd hsub (by simpa using List.find?_eq_none.mp hf kw hmem)
  · simp only [hf]
    constructor
    · intro _
      refine ⟨kw, List.mem_of_find?_eq_some hf, ?_⟩
      have := List.find?_some hf
      simpa using this
    · intro _
      rfl

/-- Witness for C1 at a concrete rejected query. -/
theorem validate_select_fails_iff_forbidden_witness :
    (validate_query "SELECT 1; DROP TABLE users").isOk = false :=
  (validate_select_fails_iff_forbidden "SELECT 1; DROP TABLE users" (by decide)).mpr
    ⟨"DROP", by decide, by decide⟩

/-- C2 counterexample: the normalized text `SELECTED name FROM t` does not
begin with `SELECT` as a whole token, yet `validate_query` accepts it —
the source checks only the character prefix (`startswith`). -/
theorem validate_accepts_non_token_select :
    beginsWithSelectToken (pyNormalize "SELECTED name FROM t") = false ∧
      validate_query "SELECTED name FROM t" = Except.ok true := by
  constructor
  · decide
  · decide

/-- C2 amended: `validate_query` fails with the not-a-read-statement error
exactly when the normalized text does not begin with `SELECT` as a
character prefix; a token boundary after `SELECT` is not required. -/
theorem validate_not_select_error_iff (query : String) :
    validate_query query = Except.error "Only SELECT queries are permitted" ↔
      "SELECT".data.isPrefixOf (pyNormalize query) = false := by
  unfold validate_query
  by_cases h : "SELECT".data.isPrefixOf (pyNormalize query) = true
  · simp only [h, if_true]
    constructor
    · intro heq
      rcases hf : FORBIDDEN_KEYWORDS.find?
          (fun kw => isSubstring kw.data (pyNormalize query)) with _ | kw
      · rw [hf] at heq
        exact absurd heq (by simp)
      · rw [hf] at heq
        have hkw := Except.error.inj heq
        have hmem := List.mem_of_find?_eq_some hf
        have : kw ∈ ["DROP", "DELETE", "UPDATE", "INSERT", "TRUNCATE",
            "ALTER", "CREATE", "GRANT", "REVOKE"] := hmem
        simp only [List.mem_cons, List.not_mem_nil, or_false] at this
        rcases this with rfl | rfl | rfl | rfl | rfl | rfl | rfl | rfl | rfl <;>
          exact absurd hkw (by decide)
    · intro hfalse
      exact absurd hfalse (by decide)
  · rw [Bool.not_eq_true] at h
    simp [h]

/-- Witness for the amended C2 at a concrete non-SELECT query. -/
theorem validate_not_select_error_iff_witness :
    validate_query "show tables" = Except.error "Only SELECT queries are permitted" :=
  (validate_not_select_error_iff "show tables").mpr (by decide)

/-- At most one rule of the decision table applies under first-match-wins
evaluation. -/
theorem ruleApplies_subsingleton {ot hp i j : Nat}
    (hi : ruleApplies ot hp i) (hj : ruleApplies ot hp j) : i = j := by
  rcases hi with ⟨_, hgi, hmi⟩
  rcases hj with ⟨_, hgj, hmj⟩
  rcases Nat.lt_trichotomy i j with hlt | heq | hgt
  · exact absurd hgi (hmj i hlt)
  · exact heq
  · exact absurd hgj (hmi j hgt)

/-- The first rule whose guard holds applies. -/
theorem ruleApplies_firstRuleIdx (ot hp : Nat) : ruleApplies ot hp (firstRuleIdx ot hp) := by
  unfold ruleApplies firstRuleIdx
  split_ifs with h0 h1 h2 h3
  · exact ⟨by omega, h0, fun j hj => absurd hj (Nat.not_lt_zero j)⟩
  · refine ⟨by omega, h1, ?_⟩
    intro j hj
    interval_cases j
    · exact h0
  · refine ⟨by omega, h2, ?_⟩
    intro j hj
    interval_cases j
    · exact h0
    · exact h1
  · refine ⟨by omega, h3, ?_⟩
    intro j hj
    interval_cases j
    · exact h0
    · exact h1
    · exact h2
  · refine ⟨by omega, trivial, ?_⟩
    intro j hj
    interval_cases j
    · exact h0
    · exact h1
    · exact h2
    · exact h3

/-- The CASE chain computes the score of the first applicable rule. -/
theorem health_score_eq_ruleScore_firstRuleIdx (ot hp : Nat) :
    health_score ot hp = ruleScore (firstRuleIdx ot hp) := by
  unfold health_score firstRuleIdx
  split_ifs <;> rfl

/-- C3: the health-score rule, evaluated in order with first match winning,
is total and deterministic over pairs of counts: the five sampled values
hold, exactly one rule applies to every pair, the computed score is the
applying rule's score, and the score is always one of
100, 85, 70, 60, 40. -/
theorem health_score_decision_table (ot hp : Nat) :
    (∀ h, health_score 0 h = 100) ∧ health_score 1 0 = 85 ∧ health_score 4 1 = 70 ∧
      health_score 3 2 = 40 ∧ health_score 6 1 = 60 ∧
      (∃! i, ruleApplies ot hp i) ∧
      (∀ i, ruleApplies ot hp i → health_score ot hp = ruleScore i) ∧
      (health_score ot hp = 100 ∨ health_score ot hp = 85 ∨ health_score ot hp = 70 ∨
        health_score ot hp = 60 ∨ health_score ot hp = 40) := by
  refine ⟨fun h => by simp [health_score], by decide, by decide, by decide, by decide,
    ⟨firstRuleIdx ot hp, ruleApplies_firstRuleIdx ot hp,
      fun j hj => ruleApplies_subsingleton hj (ruleApplies_firstRuleIdx ot hp)⟩,
    fun i hi => by
      rw [health_score_eq_ruleScore_firstRuleIdx,
        ruleApplies_subsingleton (ruleApplies_firstRuleIdx ot hp) hi],
    ?_⟩
  unfold health_score
  split_ifs <;> simp

/-- C4 (code bug): on every exit path of `query_database` — validation
failure, execution failure, success — the event trace contains no
connection-close event, although a connection is acquired whenever
validation passes: the psycopg2 connection context manager the source
relies on commits or rolls back on exit but never closes. -/
theorem query_database_connection_never_closed :
    (∀ query execOk, (query_database_events query execOk).count DbEvent.closeConn = 0) ∧
      DbEvent.acquire ∈ query_database_events "SELECT 1" true := by
  constructor
  · intro query execOk
    unfold query_database_events
    rcases hv : validate_query query with msg | b <;> simp only [hv] <;>
      cases execOk <;> rfl
  · decide

set_option maxRecDepth 8192 in
/-- C5 counterexample: two `get_open_tickets` runs whose priority argument
is present in both (the empty string and `High`) send different SQL text,
and the present-but-empty value is not bound as a parameter. -/
theorem open_tickets_sql_differs_on_empty_priority :
    (get_open_tickets_request (some "")).1 ≠ (get_open_tickets_request (some "High")).1 ∧
      (get_open_tickets_request (some "")).2 = [] := by
  constructor
  · decide
  · rfl

/-- C5 amended: the SQL text of `get_customer_info` and
`get_customer_health_score` is constant with the wildcard-wrapped search
bound as a parameter; the SQL text of `get_open_tickets` depends only on
the truthiness (present and non-empty) of the priority argument, whose
truthy value is bound as a parameter — equal truthiness gives identical
SQL text. -/
theorem fixed_tools_sql_value_independent (s₁ s₂ n₁ n₂ : String) (p₁ p₂ : Option String)
    (h : pyTruthy p₁ = pyTruthy p₂) :
    (get_customer_info_request s₁).1 = (get_customer_info_request s₂).1 ∧
      (get_customer_info_request s₁).2 = [searchPattern s₁, searchPattern s₁] ∧
      (get_customer_health_request n₁).1 = (get_customer_health_request n₂).1 ∧
      (get_customer_health_request n₁).2 = [searchPattern n₁] ∧
      (get_open_tickets_request p₁).1 = (get_open_tickets_request p₂).1 ∧
      (∀ p, pyTruthy (some p) = true → (get_open_tickets_request (some p)).2 = [p]) := by
  refine ⟨rfl, rfl, rfl, rfl, ?_, ?_⟩
  · unfold get_open_tickets_request
    rw [h]
    cases hpt : pyTruthy p₂ <;> simp
  · intro p hp
    unfold get_open_tickets_request
    simp [hp]

/-- Witness for the amended C5: priority values of equal truthiness give
identical SQL text. -/
theorem fixed_tools_sql_value_independent_witness :
    (get_open_tickets_request (some "High")).1 = (get_open_tickets_request (some "Low")).1 :=
  (fixed_tools_sql_value_independent "a" "b" "c" "d" (some "High") (some "Low")
    (by decide)).2.2.2.2.1

/-- C6: the `get_customer_info` shaping returns the single-element message
list exactly on an empty row set, passes a non-empty row set through
unchanged, and never returns an empty list. -/
theorem customer_info_shape_empty_sentinel (search : String) (results : List Row) :
    (results = [] →
        get_customer_info_shape search results =
          [[("message", PgValue.text (no_customer_message search))]]) ∧
      (results ≠ [] → get_customer_info_shape search results = results) ∧
      get_customer_info_shape search results ≠ [] := by
  unfold get_customer_info_shape
  rcases results with _ | ⟨r, rs⟩
  · simp
  · simp

/-- Witness for C6 at an empty row set. -/
theorem customer_info_shape_empty_sentinel_witness :
    get_customer_info_shape "Acme" ([] : List Row) =
      [[("message", PgValue.text (no_customer_message "Acme"))]] :=
  (customer_info_shape_empty_sentinel "Acme" []).1 rfl

/-- C7: `get_customer_health_score` returns the error object exactly when
the store produces no row, and otherwise the first produced row alone — a
single row object, however many customers match. -/
theorem customer_health_score_shape (db : Db) (customer_name : String) :
    (get_customer_health_rows db customer_name = [] →
        get_customer_health_score db customer_name =
          [("error", PgValue.text (no_customer_message customer_name))]) ∧
      ∀ r rest, get_customer_health_rows db customer_name = r :: rest →
        get_customer_health_score db customer_name = r := by
  unfold get_customer_health_score
  constructor
  · intro hempty
    rw [hempty]
    rfl
  · intro r rest hcons
    rw [hcons]
    rfl

/-- Witness for C7 at a store state with no matching customer. -/
theorem customer_health_score_shape_witness :
    get_customer_health_score sampleDb "Nobody" =
      [("error", PgValue.text (no_customer_message "Nobody"))] :=
  (customer_health_score_shape sampleDb "Nobody").1 (by decide)

/-- C8: `get_open_tickets` with priority omitted filters the joined rows by
status alone; with a non-empty priority every returned row additionally has
exactly that priority; hence the filtered rows are a subset of the
unfiltered ones over the same store state. -/
theorem open_tickets_priority_filter_subset (db : Db) (p : String) (hp : p ≠ "") :
    get_open_tickets_rows db none =
        (ticketJoin db).filter
          (fun tc => tc.1.status == "Open" || tc.1.status == "In Progress") ∧
      (∀ tc ∈ get_open_tickets_rows db (some p), tc.1.priority = p) ∧
      ∀ tc ∈ get_open_tickets_rows db (some p), tc ∈ get_open_tickets_rows db none := by
  have hptrue : pyTruthy (some p) = true := by
    simp [pyTruthy, hp]
  refine ⟨?_, ?_, ?_⟩
  · unfold get_open_tickets_rows
    apply List.filter_congr
    intro tc _
    simp [openTicketsWhere, pyTruthy]
  · intro tc htc
    have hcond := (List.mem_filter.mp htc).2
    simp only [openTicketsWhere, hptrue, if_true, Bool.and_eq_true] at hcond
    simpa using hcond.2
  · intro tc htc
    rcases List.mem_filter.mp htc with ⟨hmem, hcond⟩
    simp only [openTicketsWhere, Bool.and_eq_true] at hcond
    exact List.mem_filter.mpr ⟨hmem, by
      simp only [openTicketsWhere, pyTruthy, Bool.and_eq_true]
      exact ⟨hcond.1, by simp⟩⟩

/-- Witness for C8: the status-only characterization of the unfiltered
rows at the sample store state, with priority `High` discharging the
non-empty hypothesis. -/
theorem open_tickets_priority_filter_subset_witness :
    get_open_tickets_rows sampleDb none =
      (ticketJoin sampleDb).filter
        (fun tc => tc.1.status == "Open" || tc.1.status == "In Progress") :=
  (open_tickets_priority_filter_subset sampleDb "High" (by decide)).1

/-- C9: `get_open_tickets` with the empty string behaves exactly as with
the argument omitted — same SQL text, same (empty) parameter list, same
result rows — because the source tests truthiness, not presence. -/
theorem open_tickets_empty_priority_eq_none :
    get_open_tickets_request (some "") = get_open_tickets_request none ∧
      ∀ db, get_open_tickets db (some "") = get_open_tickets db none := by
  constructor
  · rfl
  · intro db
    rfl

/-- A `%` pattern matches every string (given enough fuel). -/
theorem likeMatchF_percent (fuel : Nat) (s : List Char) (h : s.length + 2 ≤ fuel) :
    likeMatchF fuel ['%'] s = true := by
  induction fuel generalizing s with
  | zero => omega
  | succ n ih =>
    cases s with
    | nil =>
      cases n with
      | zero => omega
      | succ m => rfl
    | cons c cs =>
      show (likeMatchF n [] (c :: cs) || likeMatchF n ['%'] cs) = true
      rw [ih cs (by simp at h; omega)]
      exact Bool.or_true _

/-- A `%%` pattern matches every string (given enough fuel). -/
theorem likeMatchF_two_percent (fuel : Nat) (s : List Char) (h : s.length + 3 ≤ fuel) :
    likeMatchF fuel ['%', '%'] s = true := by
  cases fuel with
  | zero => omega
  | succ n =>
    cases s with
    | nil =>
      show likeMatchF n ['%'] [] = true
      exact likeMatchF_percent n [] (by omega)
    | cons c cs =>
      show (likeMatchF n ['%'] (c :: cs) || likeMatchF n ['%', '%'] cs) = true
      rw [likeMatchF_percent n (c :: cs) (by simp at h ⊢; omega)]
      rfl

/-- A `%%%` pattern matches every string (given enough fuel). -/
theorem likeMatchF_three_percent (fuel : Nat) (s : List Char) (h : s.length + 4 ≤ fuel) :
    likeMatchF fuel ['%', '%', '%'] s = true := by
  cases fuel with
  | zero => omega
  | succ n =>
    cases s with
    | nil =>
      show likeMatchF n ['%', '%'] [] = true
      exact likeMatchF_two_percent n [] (by omega)
    | cons c cs =>
      show (likeMatchF n ['%', '%'] (c :: cs) || likeMatchF n ['%', '%', '%'] cs) = true
      rw [likeMatchF_two_percent n (c :: cs) (by simp at h ⊢; omega)]
      rfl

/-- The pattern `%%%` (wildcard-wrapped `%` input) LIKE-matches any text. -/
theorem likeMatch_three_percent (s : List Char) : likeMatch ['%', '%', '%'] s = true :=
  likeMatchF_three_percent _ s (by simp [likeMatch]; omega)

/-- `ILIKE` against the pattern `%%%` accepts every string. -/
theorem ilike_triple_percent (s : String) : ilike s (searchPattern "%") = true := by
  unfold ilike
  have hpat : pyUpper (searchPattern "%").data = ['%', '%', '%'] := by decide
  rw [hpat]
  exact likeMatch_three_percent _

/-- The `get_customer_info` WHERE condition accepts every customer when the
search input is `%`. -/
theorem customerMatches_percent (c : Customer) : customerMatches "%" c = true := by
  unfold customerMatches
  rw [ilike_triple_percent]
  rfl

/-- C10: the bound pattern is the unescaped concatenation `'%' + input +
'%'`; with the input `%` every customer matches the `ILIKE` condition, so
on any store state with at least one customer `get_customer_info` returns
the full customer row set — not the no-customer-found sentinel — and
`get_customer_health_score` does not return its error object. -/
theorem wildcard_search_matches_all (db : Db) (h : db.customers ≠ []) :
    (∀ s, searchPattern s = "%" ++ s ++ "%") ∧
      (∀ c ∈ db.customers, customerMatches "%" c = true) ∧
      get_customer_info db "%" = db.customers.map (customerInfoRow db) ∧
      get_customer_info db "%" ≠ [[("message", PgValue.text (no_customer_message "%"))]] ∧
      get_customer_health_score db "%" ≠
        [("error", PgValue.text (no_customer_message "%"))] := by
  have hfilter : db.customers.filter (customerMatches "%") = db.customers :=
    List.filter_eq_self.mpr fun c _ => customerMatches_percent c
  have hfilter2 :
      (db.customers.filter fun c => ilike c.name (searchPattern "%")) = db.customers :=
    List.filter_eq_self.mpr fun c _ => ilike_triple_percent c.name
  have h3 : get_customer_info db "%" = db.customers.map (customerInfoRow db) := by
    unfold get_customer_info get_customer_info_shape get_customer_info_rows
    rw [hfilter]
    rcases hc : db.customers with _ | ⟨c0, cs⟩
    · exact absurd hc h
    · simp
  have h4 : get_customer_info db "%" ≠
      [[("message", PgValue.text (no_customer_message "%"))]] := by
    rw [h3]
    rcases hc : db.customers with _ | ⟨c0, cs⟩
    · exact absurd hc h
    · intro heq
      simp only [List.map_cons, List.cons.injEq] at heq
      have := heq.1
      simp [customerInfoRow] at this
  have h5 : get_customer_health_score db "%" ≠
      [("error", PgValue.text (no_customer_message "%"))] := by
    unfold get_customer_health_score get_customer_health_rows
    rw [hfilter2]
    rcases hc : db.customers with _ | ⟨c0, cs⟩
    · exact absurd hc h
    · simp only [List.map_cons, List.head?_cons]
      intro heq
      simp [healthMetricsRow] at heq
  exact ⟨fun s => rfl, fun c _ => customerMatches_percent c, h3, h4, h5⟩

/-- Witness for C10: at the sample store state the `%` search returns the
full customer row set. -/
theorem wildcard_search_matches_all_witness :
    get_customer_info sampleDb "%" = sampleDb.customers.map (customerInfoRow sampleDb) :=
  (wildcard_search_matches_all sampleDb (by decide)).2.2.1
